import Mathlib

/-!
Shallow embedding of the `zos-apps/assistant` widget (`src/src/index.tsx`).

The component is a single React function component whose behaviour is a
state machine over its hook state: tip index, animating flag, bubble
visibility, chat-mode flag, message list, input buffer, typing flag, plus
the timers it schedules (the 8-second tip-rotation interval with its nested
400 ms / 100 ms animation timeouts, and the simulated-reply timeout of each
send).  We embed that state machine directly:

* JavaScript `a || b` on optional configuration fields is embedded by
  `jsOrString` (the empty string is falsy) and `jsOrList` (an empty array
  is truthy, so only an absent field falls back to the default);
* `Math.random()` is a parameter `r : Rat` with `0 ≤ r < 1` passed to the
  step that evaluates it; `Date` timestamps are `Nat` parameters;
* each timer callback is a step function guarded by a flag recording
  whether such a timer is pending; the 8-second interval exists exactly
  while the tip-rotation effect is mounted (`showBubble && !chatMode`),
  because its cleanup calls `clearInterval`, so its firing step is guarded
  by that condition; the nested `setTimeout`s are NOT cleared by the
  cleanup, so their firing steps are guarded only by their pending flags;
* a JavaScript string field that can receive `undefined`
  (`responses[i]` out of bounds) is embedded as `Option String`, with
  `none` for `undefined`.
-/

namespace ZAssistant

/-- `role: 'user' | 'assistant'` of `AssistantMessage`. -/
inductive Role where
  | user
  | assistant
deriving DecidableEq, Repr

/-- `AssistantMessage` (index.tsx lines 4-8).  `content` is an `Option`
because JavaScript can store `undefined` in the field (indexing an empty
response pool); a defined string `s` is `some s`. -/
structure AssistantMessage where
  role : Role
  content : Option String
  timestamp : Nat
deriving DecidableEq, Repr

/-- `AssistantTip` (index.tsx lines 10-13); the optional icon is an opaque
render node, kept abstract as an optional tag. -/
structure AssistantTip where
  text : String
  icon : Option String := none
deriving DecidableEq, Repr

/-- `AssistantConfig` (index.tsx lines 15-22); every field optional. -/
structure AssistantConfig where
  name : Option String := none
  avatar : Option String := none
  tips : Option (List AssistantTip) := none
  responses : Option (List String) := none
  welcomeMessage : Option String := none
  modelUrl : Option String := none
deriving DecidableEq, Repr

/-- `defaultTips` (index.tsx lines 24-29). -/
def defaultTips : List AssistantTip :=
  [ { text := "Hi! I'm your AI assistant. How can I help you today? 🚀" },
    { text := "Did you know? You can ask me about coding, writing, or anything else!" },
    { text := "Pro tip: I can help you brainstorm ideas and solve problems 💡" },
    { text := "I'm here to help! Just ask me anything 💬" } ]

/-- `defaultResponses` (index.tsx lines 31-37). -/
def defaultResponses : List String :=
  [ "That's a great question! Let me help you with that.",
    "Interesting! I'd be happy to explore that further with you.",
    "Great thinking! Here's what I know about that topic.",
    "Thanks for asking! I'll do my best to help.",
    "I love your curiosity! Let me share what I know." ]

/-- JavaScript `v || d` for an optional string field: both an absent field
and the empty string are falsy, so both fall back to the default. -/
def jsOrString (v : Option String) (d : String) : String :=
  match v with
  | none => d
  | some s => if s = "" then d else s

/-- JavaScript `v || d` for an optional array field: every array, the empty
one included, is truthy, so only an absent field falls back to the default. -/
def jsOrList {α : Type} (v : Option (List α)) (d : List α) : List α :=
  match v with
  | none => d
  | some l => l

/-- JavaScript `String.prototype.trim`: remove whitespace from both ends of
the string (embedded structurally over the character list so the kernel can
evaluate it). -/
def jsTrim (s : String) : String :=
  ⟨(((s.data.dropWhile Char.isWhitespace).reverse).dropWhile
      Char.isWhitespace).reverse⟩

/-- `const tips = config?.tips || defaultTips` (index.tsx line 49). -/
def resolvedTips (cfg : AssistantConfig) : List AssistantTip :=
  jsOrList cfg.tips defaultTips

/-- `const responses = config?.responses || defaultResponses` (line 50). -/
def resolvedResponses (cfg : AssistantConfig) : List String :=
  jsOrList cfg.responses defaultResponses

/-- `const name = config?.name || 'AI Assistant'` (line 51). -/
def resolvedName (cfg : AssistantConfig) : String :=
  jsOrString cfg.name "AI Assistant"

/-- `const welcomeMessage = config?.welcomeMessage || ...` (line 52). -/
def resolvedWelcomeMessage (cfg : AssistantConfig) : String :=
  jsOrString cfg.welcomeMessage
    ("Hi! I'm " ++ resolvedName cfg ++ " 👋 Ask me anything!")

/-- The hook state of one mounted `ZAssistant` instance (lines 40-47),
together with the timers the component has scheduled:
`tipAdvancePending` records the 400 ms `setTimeout` of line 70 being
scheduled and not yet fired, `tipSettlePending` the 100 ms `setTimeout` of
line 72, and `pendingReplies` the delays of the simulated-reply timeouts of
line 99 in scheduling order. -/
structure State where
  currentTip : Nat := 0
  isAnimating : Bool := false
  showBubble : Bool := true
  chatMode : Bool := false
  chatMessages : List AssistantMessage := []
  chatInput : String := ""
  isTyping : Bool := false
  tipAdvancePending : Bool := false
  tipSettlePending : Bool := false
  pendingReplies : List Rat := []
deriving DecidableEq, Repr

/-- The `useState` initial values (lines 40-47). -/
def initialState : State := {}

/-- The welcome-message effect (lines 55-63): if the message sequence is
empty, set it to the single assistant welcome message. -/
def welcomeInit (cfg : AssistantConfig) (now : Nat) (s : State) : State :=
  if s.chatMessages = [] then
    { s with chatMessages :=
        [⟨Role.assistant, some (resolvedWelcomeMessage cfg), now⟩] }
  else s

/-- `responses[Math.floor(Math.random() * responses.length)]` (line 102):
`r` is the value of `Math.random()`; `none` is JavaScript `undefined`. -/
def selectResponse (pool : List String) (r : Rat) : Option String :=
  pool.get? (Int.floor (r * pool.length)).toNat

/-- `handleSendMessage` (lines 85-108).  `now` is the current time and
`rDelay` the `Math.random()` draw of the timeout duration
`1000 + Math.random() * 1000` (line 107).  When the trimmed input is empty
the handler returns without any change (line 86); otherwise it appends the
user message, clears the input, sets the typing indicator and schedules one
simulated-reply timeout. -/
def handleSendMessage (now : Nat) (rDelay : Rat) (s : State) : State :=
  if jsTrim s.chatInput = "" then s
  else
    { s with
      chatMessages :=
        s.chatMessages ++ [⟨Role.user, some (jsTrim s.chatInput), now⟩],
      chatInput := "",
      isTyping := true,
      pendingReplies := s.pendingReplies ++ [1000 + rDelay * 1000] }

/-- The simulated-reply timeout callback (lines 99-106) firing: one pending
reply timer resolves, appending an assistant message whose content is
`responses[Math.floor(rPick * responses.length)]` and clearing the typing
indicator.  With no pending timer nothing can fire. -/
def deliverReply (cfg : AssistantConfig) (now : Nat) (rPick : Rat)
    (s : State) : State :=
  if s.pendingReplies = [] then s
  else
    { s with
      chatMessages := s.chatMessages ++
        [⟨Role.assistant, selectResponse (resolvedResponses cfg) rPick, now⟩],
      isTyping := false,
      pendingReplies := s.pendingReplies.tail }

/-- `openChat` (lines 110-113). -/
def openChat (s : State) : State :=
  { s with chatMode := true, showBubble := false }

/-- The close button handler (line 212):
`setChatMode(false); setShowBubble(true)`. -/
def closeChat (s : State) : State :=
  { s with chatMode := false, showBubble := true }

/-- `onChange` of the input field (line 259). -/
def setChatInput (text : String) (s : State) : State :=
  { s with chatInput := text }

/-- The 8-second interval callback (lines 68-74) firing.  The tip-rotation
effect installs the interval only when `showBubble && !chatMode` (the guard
on line 67) and its cleanup (line 75) clears it whenever that condition
changes or the component unmounts, so the callback can only run in a state
satisfying the guard; it begins the fade-out and schedules the 400 ms
advance timeout. -/
def intervalFire (s : State) : State :=
  if s.showBubble && !s.chatMode then
    { s with isAnimating := true, tipAdvancePending := true }
  else s

/-- The 400 ms timeout (lines 70-73) firing: advance the tip index modulo
the tip-list length and schedule the 100 ms settle timeout.  This timeout
is NOT cleared by the effect cleanup (line 75 clears only the interval), so
its firing is guarded only by its own pending flag. -/
def tipAdvanceFire (cfg : AssistantConfig) (s : State) : State :=
  if s.tipAdvancePending then
    { s with
      currentTip := (s.currentTip + 1) % (resolvedTips cfg).length,
      tipAdvancePending := false,
      tipSettlePending := true }
  else s

/-- The 100 ms timeout (line 72) firing: end the fade-out.  Like the 400 ms
timeout it is not cleared by the effect cleanup. -/
def tipSettleFire (s : State) : State :=
  if s.tipSettlePending then
    { s with isAnimating := false, tipSettlePending := false }
  else s

/-- One complete, uninterrupted tip-rotation cycle: the interval elapses,
then the 400 ms advance fires, then the 100 ms settle fires. -/
def rotationCycle (cfg : AssistantConfig) (s : State) : State :=
  tipSettleFire (tipAdvanceFire cfg (intervalFire s))

/-- Every event of the widget's life: effect runs, user actions, and timer
callbacks firing. -/
inductive Event where
  | welcome (now : Nat)
  | input (text : String)
  | send (now : Nat) (rDelay : Rat)
  | reply (now : Nat) (rPick : Rat)
  | openChat
  | closeChat
  | tick
  | advance
  | settle
deriving DecidableEq, Repr

/-- The widget's step function: how each event transforms the state. -/
def step (cfg : AssistantConfig) (e : Event) (s : State) : State :=
  match e with
  | Event.welcome now => welcomeInit cfg now s
  | Event.input text => setChatInput text s
  | Event.send now rDelay => handleSendMessage now rDelay s
  | Event.reply now rPick => deliverReply cfg now rPick s
  | Event.openChat => openChat s
  | Event.closeChat => closeChat s
  | Event.tick => intervalFire s
  | Event.advance => tipAdvanceFire cfg s
  | Event.settle => tipSettleFire s

/-! ## Helper lemmas -/

/-- `Math.floor(r * pool.length)` indexes inside a non-empty pool when
`0 ≤ r < 1`, so the selection is a member of the pool. -/
lemma selectResponse_mem (pool : List String) (r : Rat)
    (hp : pool ≠ []) (h0 : 0 ≤ r) (h1 : r < 1) :
    ∃ c, c ∈ pool ∧ selectResponse pool r = some c := by
  have hlen : 0 < pool.length := List.length_pos.mpr hp
  have hlenQ : (0 : Rat) < (pool.length : Rat) := by exact_mod_cast hlen
  have hub : Int.floor (r * (pool.length : Rat)) < (pool.length : Int) := by
    rw [Int.floor_lt]
    push_cast
    calc r * (pool.length : Rat) < 1 * (pool.length : Rat) :=
          mul_lt_mul_of_pos_right h1 hlenQ
      _ = (pool.length : Rat) := one_mul _
  have hlb : 0 ≤ Int.floor (r * (pool.length : Rat)) :=
    Int.floor_nonneg.mpr (mul_nonneg h0 (le_of_lt hlenQ))
  have hidx : (Int.floor (r * (pool.length : Rat))).toNat < pool.length := by
    omega
  refine ⟨pool.get ⟨_, hidx⟩, List.get_mem _ _ _, ?_⟩
  unfold selectResponse
  exact List.get?_eq_get hidx

/-- One uninterrupted rotation cycle from a quiescent tips-view state:
the tip index advances by one modulo the tip-list length and the state
returns to a quiescent tips-view state. -/
lemma rotationCycle_spec (cfg : AssistantConfig) (s : State)
    (hb : s.showBubble = true) (hc : s.chatMode = false)
    (_ha : s.tipAdvancePending = false) (hsp : s.tipSettlePending = false) :
    (rotationCycle cfg s).currentTip
        = (s.currentTip + 1) % (resolvedTips cfg).length
    ∧ (rotationCycle cfg s).showBubble = true
    ∧ (rotationCycle cfg s).chatMode = false
    ∧ (rotationCycle cfg s).tipAdvancePending = false
    ∧ (rotationCycle cfg s).tipSettlePending = false := by
  unfold rotationCycle intervalFire tipAdvanceFire tipSettleFire
  simp [hb, hc, hsp]

/-- Advancing a residue modulo `n` agrees with advancing the representative. -/
lemma mod_succ_mod (a n : Nat) : (a % n + 1) % n = (a + 1) % n := by
  conv_lhs => rw [Nat.add_mod]
  conv_rhs => rw [Nat.add_mod]
  rw [Nat.mod_mod_of_dvd _ dvd_rfl]

/-- Iterated rotation cycles from a quiescent tips-view state advance the
tip index by the cycle count, modulo the tip-list length. -/
lemma rotationCycle_iterate (cfg : AssistantConfig) (s : State) (N : Nat)
    (hb : s.showBubble = true) (hc : s.chatMode = false)
    (ha : s.tipAdvancePending = false) (hsp : s.tipSettlePending = false) :
    ((rotationCycle cfg)^[N] s).currentTip
        = (if N = 0 then s.currentTip
           else (s.currentTip + N) % (resolvedTips cfg).length)
    ∧ ((rotationCycle cfg)^[N] s).showBubble = true
    ∧ ((rotationCycle cfg)^[N] s).chatMode = false
    ∧ ((rotationCycle cfg)^[N] s).tipAdvancePending = false
    ∧ ((rotationCycle cfg)^[N] s).tipSettlePending = false := by
  induction N with
  | zero => simpa using ⟨hb, hc, ha, hsp⟩
  | succ n ih =>
    obtain ⟨htip, hb2, hc2, ha2, hsp2⟩ := ih
    rw [Function.iterate_succ_apply']
    obtain ⟨htip3, hb3, hc3, ha3, hsp3⟩ :=
      rotationCycle_spec cfg _ hb2 hc2 ha2 hsp2
    refine ⟨?_, hb3, hc3, ha3, hsp3⟩
    rw [htip3, htip]
    by_cases hn : n = 0
    · simp [hn]
    · rw [if_neg hn, if_neg (Nat.succ_ne_zero n), mod_succ_mod]
      ring_nf

/-! ## The claims -/

/-- C1: for every state whose trimmed input is non-empty (and a response
pool with members), the send action appends exactly one user message whose
content is the trimmed input, clears the input buffer, sets the typing
indicator, and schedules exactly one delayed reply; when that reply timer
fires (for any random draw in `[0,1)`) it appends one assistant message
whose content is a member of the resolved response pool and clears the
typing indicator. -/
theorem send_appends_and_schedules_reply (cfg : AssistantConfig) (s : State)
    (now : Nat) (rDelay : Rat)
    (hne : jsTrim s.chatInput ≠ "")
    (hpool : resolvedResponses cfg ≠ []) :
    (handleSendMessage now rDelay s).chatMessages
        = s.chatMessages ++ [⟨Role.user, some (jsTrim s.chatInput), now⟩]
    ∧ (handleSendMessage now rDelay s).chatInput = ""
    ∧ (handleSendMessage now rDelay s).isTyping = true
    ∧ (handleSendMessage now rDelay s).pendingReplies
        = s.pendingReplies ++ [1000 + rDelay * 1000]
    ∧ ∀ (now2 : Nat) (rPick : Rat), 0 ≤ rPick → rPick < 1 →
        ∃ c, c ∈ resolvedResponses cfg
          ∧ (deliverReply cfg now2 rPick
                (handleSendMessage now rDelay s)).chatMessages
              = (handleSendMessage now rDelay s).chatMessages
                ++ [⟨Role.assistant, some c, now2⟩]
          ∧ (deliverReply cfg now2 rPick
                (handleSendMessage now rDelay s)).isTyping = false := by
  have hsend : handleSendMessage now rDelay s =
      { s with
        chatMessages :=
          s.chatMessages ++ [⟨Role.user, some (jsTrim s.chatInput), now⟩],
        chatInput := "",
        isTyping := true,
        pendingReplies := s.pendingReplies ++ [1000 + rDelay * 1000] } := by
    unfold handleSendMessage
    exact if_neg hne
  have hpend : (handleSendMessage now rDelay s).pendingReplies ≠ [] := by
    rw [hsend]
    simp
  refine ⟨by rw [hsend], by rw [hsend], by rw [hsend], by rw [hsend], ?_⟩
  intro now2 rPick h0 h1
  obtain ⟨c, hc, hsel⟩ := selectResponse_mem (resolvedResponses cfg) rPick
    hpool h0 h1
  refine ⟨c, hc, ?_, ?_⟩
  · unfold deliverReply
    rw [if_neg hpend, hsel]
  · unfold deliverReply
    rw [if_neg hpend]

/-- C1 witness: a concrete send of "hi" under the default configuration. -/
theorem send_appends_and_schedules_reply_witness :
    (handleSendMessage 1 0 { chatInput := "hi" }).chatMessages
        = ({ chatInput := "hi" } : State).chatMessages
          ++ [⟨Role.user, some (jsTrim "hi"), 1⟩]
    ∧ ∃ c, c ∈ resolvedResponses {}
        ∧ (deliverReply {} 2 0 (handleSendMessage 1 0
              { chatInput := "hi" })).chatMessages
            = (handleSendMessage 1 0 { chatInput := "hi" }).chatMessages
              ++ [⟨Role.assistant, some c, 2⟩] := by
  have h := send_appends_and_schedules_reply {} { chatInput := "hi" } 1 0
    (by decide) (by decide)
  refine ⟨h.1, ?_⟩
  obtain ⟨c, hc, hmsg, _⟩ := h.2.2.2.2 2 0 le_rfl zero_lt_one
  exact ⟨c, hc, hmsg⟩

/-- C2: when the input buffer trims to the empty string, the send action
is a no-op: the whole state, in particular the message sequence, the input
buffer and the typing flag, is unchanged, and no error is signaled (the
handler simply returns). -/
theorem send_whitespace_noop (now : Nat) (rDelay : Rat) (s : State)
    (h : jsTrim s.chatInput = "") :
    handleSendMessage now rDelay s = s := by
  unfold handleSendMessage
  exact if_pos h

/-- C2 witness: sending with the whitespace-only input "  " changes
nothing. -/
theorem send_whitespace_noop_witness :
    jsTrim "  " = ""
    ∧ handleSendMessage 0 0 { chatInput := "  " }
        = ({ chatInput := "  " } : State) :=
  ⟨by decide, send_whitespace_noop 0 0 _ (by decide)⟩

/-- C3 counterexample: with the welcome message configured as the empty
string, the claim's disjunction fails — a welcome message IS configured
(`some ""`), yet the initialized content is the default template, not the
configured text. -/
theorem welcome_empty_string_counterexample :
    ({ welcomeMessage := some "" } : AssistantConfig).welcomeMessage
        = some ""
    ∧ (step { welcomeMessage := some "" } (Event.welcome 0)
          initialState).chatMessages
        = [⟨Role.assistant, some "Hi! I'm AI Assistant 👋 Ask me anything!", 0⟩]
    ∧ ("Hi! I'm AI Assistant 👋 Ask me anything!" : String) ≠ "" :=
  ⟨rfl, by decide, by decide⟩

/-- C3 (amended): immediately after first activation the message sequence
has exactly one entry, an assistant message whose content is the resolved
welcome text: the configured welcome message when one is configured and
non-empty, and otherwise (absent OR configured empty, the JavaScript `||`
fallback) the default template interpolating the resolved display name
(itself the configured name when non-empty, else the default). -/
theorem welcome_message_initialization (cfg : AssistantConfig) (now : Nat) :
    (step cfg (Event.welcome now) initialState).chatMessages
        = [⟨Role.assistant, some (resolvedWelcomeMessage cfg), now⟩]
    ∧ (∀ w, cfg.welcomeMessage = some w → w ≠ "" →
        resolvedWelcomeMessage cfg = w)
    ∧ ((cfg.welcomeMessage = none ∨ cfg.welcomeMessage = some "") →
        resolvedWelcomeMessage cfg
          = "Hi! I'm " ++ resolvedName cfg ++ " 👋 Ask me anything!")
    ∧ (∀ n, cfg.name = some n → n ≠ "" → resolvedName cfg = n)
    ∧ ((cfg.name = none ∨ cfg.name = some "") →
        resolvedName cfg = "AI Assistant") := by
  refine ⟨?_, ?_, ?_, ?_, ?_⟩
  · simp [step, welcomeInit, initialState]
  · intro w hw hne
    simp [resolvedWelcomeMessage, jsOrString, hw, hne]
  · rintro (hw | hw) <;> simp [resolvedWelcomeMessage, jsOrString, hw]
  · intro n hn hne
    simp [resolvedName, jsOrString, hn, hne]
  · rintro (hn | hn) <;> simp [resolvedName, jsOrString, hn]

/-- C3 witness: a configured, non-empty welcome message is used verbatim. -/
theorem welcome_message_initialization_witness :
    (step { welcomeMessage := some "hello" } (Event.welcome 5)
        initialState).chatMessages
      = [⟨Role.assistant, some "hello", 5⟩] := by
  have h := welcome_message_initialization
    { welcomeMessage := some "hello" } 5
  rw [h.1, h.2.1 "hello" rfl (by decide)]

/-- C4: the tip-rotation effect's cleanup clears only the 8-second
interval; the nested 400 ms advance timeout of a cycle already in progress
is NOT cancelled when chat view is opened.  Concretely, from the initial
state under the default configuration: the interval fires (beginning a
cycle), the user opens chat (the interval is cancelled, the tip index is
still 0), and the leaked 400 ms timeout then fires and advances the tip
index to 1 while chat view is active — contradicting the claim that the
tip index is never updated after chat view is entered. -/
theorem tip_timer_leak_after_open_chat :
    (step {} Event.openChat (step {} Event.tick initialState)).chatMode
        = true
    ∧ (step {} Event.openChat (step {} Event.tick initialState)).currentTip
        = 0
    ∧ (step {} Event.openChat
          (step {} Event.tick initialState)).tipAdvancePending = true
    ∧ (step {} Event.advance (step {} Event.openChat
          (step {} Event.tick initialState))).chatMode = true
    ∧ (step {} Event.advance (step {} Event.openChat
          (step {} Event.tick initialState))).currentTip = 1 := by
  decide

/-- C5: for every configuration with a non-empty tip list, starting from
tip index 0 in a quiescent tips-view state (bubble shown, chat closed, no
animation timeout in flight), completing `N` uninterrupted rotation cycles
leaves the tip index equal to `N mod tips.length`. -/
theorem tip_index_after_cycles (cfg : AssistantConfig) (s : State) (N : Nat)
    (htips : resolvedTips cfg ≠ [])
    (h0 : s.currentTip = 0)
    (hb : s.showBubble = true) (hc : s.chatMode = false)
    (ha : s.tipAdvancePending = false) (hsp : s.tipSettlePending = false) :
    ((rotationCycle cfg)^[N] s).currentTip
      = N % (resolvedTips cfg).length := by
  have _ := htips
  obtain ⟨htip, -, -, -, -⟩ := rotationCycle_iterate cfg s N hb hc ha hsp
  rw [htip]
  by_cases hN : N = 0
  · simp [hN, h0]
  · rw [if_neg hN, h0, Nat.zero_add]

/-- C5 witness: five cycles under the default configuration (four tips)
leave the tip index at `5 mod 4`. -/
theorem tip_index_after_cycles_witness :
    ((rotationCycle {})^[5] initialState).currentTip
      = 5 % (resolvedTips ({} : AssistantConfig)).length :=
  tip_index_after_cycles {} initialState 5 (by decide) rfl rfl rfl rfl rfl

/-- C6: opening chat view hides the tip bubble (and enters chat mode);
closing it restores the tip bubble (and leaves chat mode), and both
transitions leave the tip index and the accumulated message sequence
unchanged — also across an open-then-close round trip. -/
theorem open_close_chat_frame (s : State) :
    (openChat s).showBubble = false
    ∧ (openChat s).chatMode = true
    ∧ (openChat s).currentTip = s.currentTip
    ∧ (openChat s).chatMessages = s.chatMessages
    ∧ (closeChat s).showBubble = true
    ∧ (closeChat s).chatMode = false
    ∧ (closeChat s).currentTip = s.currentTip
    ∧ (closeChat s).chatMessages = s.chatMessages
    ∧ (closeChat (openChat s)).showBubble = true
    ∧ (closeChat (openChat s)).chatMode = false
    ∧ (closeChat (openChat s)).currentTip = s.currentTip
    ∧ (closeChat (openChat s)).chatMessages = s.chatMessages :=
  ⟨rfl, rfl, rfl, rfl, rfl, rfl, rfl, rfl, rfl, rfl, rfl, rfl⟩

/-- C7: with a configured single-element response pool `["Only reply"]`,
every simulated assistant reply (from any state with a reply scheduled,
however many sends produced it, and for any random draw in `[0,1)`) has
content exactly "Only reply". -/
theorem single_response_pool_reply (cfg : AssistantConfig) (s : State)
    (now : Nat) (rPick : Rat)
    (hcfg : cfg.responses = some ["Only reply"])
    (hpend : s.pendingReplies ≠ [])
    (h0 : 0 ≤ rPick) (h1 : rPick < 1) :
    (deliverReply cfg now rPick s).chatMessages
      = s.chatMessages ++ [⟨Role.assistant, some "Only reply", now⟩] := by
  have hres : resolvedResponses cfg = ["Only reply"] := by
    simp [resolvedResponses, jsOrList, hcfg]
  have hsel : selectResponse (resolvedResponses cfg) rPick
      = some "Only reply" := by
    obtain ⟨c, hc, h⟩ := selectResponse_mem (resolvedResponses cfg) rPick
      (by rw [hres]; exact List.cons_ne_nil _ _) h0 h1
    rw [hres] at hc
    simp only [List.mem_singleton] at hc
    rwa [hc] at h
  unfold deliverReply
  rw [if_neg hpend, hsel]

/-- C7 witness: a concrete delivery from a state with one scheduled reply. -/
theorem single_response_pool_reply_witness :
    (deliverReply { responses := some ["Only reply"] } 3 0
        { pendingReplies := [1500] }).chatMessages
      = ({ pendingReplies := [1500] } : State).chatMessages
        ++ [⟨Role.assistant, some "Only reply", 3⟩] :=
  single_response_pool_reply { responses := some ["Only reply"] }
    { pendingReplies := [1500] } 3 0 rfl (by decide) le_rfl zero_lt_one

/-- C8: the message sequence is append-only: every event of the widget
(welcome initialization, input editing, send, simulated-reply delivery,
opening and closing chat, and every timer firing) leaves the message
sequence unchanged or extends it at the end, so existing messages are never
deleted, reordered, or mutated. -/
theorem messages_append_only (cfg : AssistantConfig) (e : Event) (s : State) :
    ∃ t, (step cfg e s).chatMessages = s.chatMessages ++ t := by
  cases e with
  | welcome now =>
    simp only [step]
    unfold welcomeInit
    by_cases h : s.chatMessages = []
    · rw [if_pos h]
      exact ⟨[⟨Role.assistant, some (resolvedWelcomeMessage cfg), now⟩],
        by simp [h]⟩
    · rw [if_neg h]
      exact ⟨[], by simp⟩
  | input text => exact ⟨[], by simp [step, setChatInput]⟩
  | send now rDelay =>
    simp only [step]
    unfold handleSendMessage
    by_cases h : jsTrim s.chatInput = ""
    · rw [if_pos h]
      exact ⟨[], by simp⟩
    · rw [if_neg h]
      exact ⟨[⟨Role.user, some (jsTrim s.chatInput), now⟩], rfl⟩
  | reply now rPick =>
    simp only [step]
    unfold deliverReply
    by_cases h : s.pendingReplies = []
    · rw [if_pos h]
      exact ⟨[], by simp⟩
    · rw [if_neg h]
      exact ⟨[⟨Role.assistant,
        selectResponse (resolvedResponses cfg) rPick, now⟩], rfl⟩
  | openChat => exact ⟨[], by simp [step, openChat]⟩
  | closeChat => exact ⟨[], by simp [step, closeChat]⟩
  | tick =>
    refine ⟨[], ?_⟩
    simp only [step]
    unfold intervalFire
    split <;> simp
  | advance =>
    refine ⟨[], ?_⟩
    simp only [step]
    unfold tipAdvanceFire
    split <;> simp
  | settle =>
    refine ⟨[], ?_⟩
    simp only [step]
    unfold tipSettleFire
    split <;> simp

/-- C9: for every send whose trimmed input is non-empty and every random
draw in `[0,1)`, the scheduled reply delay `1000 + r * 1000` lies in
`[1000, 2000)` milliseconds. -/
theorem reply_delay_bounds (now : Nat) (rDelay : Rat) (s : State)
    (hne : jsTrim s.chatInput ≠ "")
    (h0 : 0 ≤ rDelay) (h1 : rDelay < 1) :
    ∃ d : Rat, (handleSendMessage now rDelay s).pendingReplies
        = s.pendingReplies ++ [d]
      ∧ 1000 ≤ d ∧ d < 2000 := by
  refine ⟨1000 + rDelay * 1000, ?_, ?_, ?_⟩
  · unfold handleSendMessage
    rw [if_neg hne]
  · nlinarith
  · nlinarith

/-- C9 witness: a concrete send with random draw 0 schedules a delay in
bounds. -/
theorem reply_delay_bounds_witness :
    ∃ d : Rat, (handleSendMessage 0 0 { chatInput := "x" }).pendingReplies
        = ({ chatInput := "x" } : State).pendingReplies ++ [d]
      ∧ 1000 ≤ d ∧ d < 2000 :=
  reply_delay_bounds 0 0 { chatInput := "x" } (by decide) le_rfl zero_lt_one

/-- C10: the built-in defaults are substituted only when the configuration
field is absent, not when it is an empty list; with a configured empty tip
list every read `tips[currentTip]` is out of bounds (`none`, JavaScript
`undefined`) and the rotation step computes its index modulo zero; with a
configured empty response pool the simulated reply's content is the result
of indexing the empty list (`none`, JavaScript `undefined`). -/
theorem empty_config_lists_not_defaulted :
    (∀ l, resolvedTips { tips := some l } = l)
    ∧ resolvedTips {} = defaultTips
    ∧ (∀ l, resolvedResponses { responses := some l } = l)
    ∧ resolvedResponses {} = defaultResponses
    ∧ (∀ i, (resolvedTips { tips := some [] }).get? i = none)
    ∧ (resolvedTips { tips := some [] }).length = 0
    ∧ (∀ s, (tipAdvanceFire { tips := some [] } s).currentTip
        = if s.tipAdvancePending then (s.currentTip + 1) % 0
          else s.currentTip)
    ∧ (∀ r, selectResponse (resolvedResponses { responses := some [] }) r
        = none) := by
  refine ⟨fun l => rfl, rfl, fun l => rfl, rfl, fun i => ?_, rfl,
    fun s => ?_, fun r => ?_⟩
  · simp [resolvedTips, jsOrList]
  · unfold tipAdvanceFire
    split <;> simp_all [resolvedTips, jsOrList]
  · simp [selectResponse, resolvedResponses, jsOrList]

end ZAssistant
